import Mathlib

/-!
Verification of the taskflow backend's todo core against its specification.

The definitions below are a shallow embedding of the repository's code:
the Mongoose schema methods and statics in `todo.schema.js` and the Express
route handlers in `todo.routes.js`.  Documents are Lean structures, the
document store is a `List Todo`, instants (Date values) are milliseconds
since the epoch as `Nat`, and Mongo/Mongoose query documents are explicit
filter records with an evaluation function.  Embedded `comments` and
`attachments` sub-documents are omitted: no verified property touches them.
-/

namespace TaskFlow

/-- The `priority` enum of the todo schema: low, medium, high. -/
inductive Priority
  | low
  | medium
  | high
deriving DecidableEq, Repr

/-- The `status` enum of the todo schema: pending, in-progress, completed. -/
inductive Status
  | pending
  | inProgress
  | completed
deriving DecidableEq, Repr

/-- String form of a status, as stored in the document database. -/
def statusToStr : Status → String
  | Status.pending => "pending"
  | Status.inProgress => "in-progress"
  | Status.completed => "completed"

/-- String form of a priority, as stored in the document database. -/
def priorityToStr : Priority → String
  | Priority.low => "low"
  | Priority.medium => "medium"
  | Priority.high => "high"

/-- An embedded subtask: `{ title, completed, createdAt }` plus its
store-generated `_id`, modelled as a `Nat`. -/
structure Subtask where
  id : Nat
  title : String
  completed : Bool
  createdAt : Nat
deriving DecidableEq, Repr

/-- A Todo document (the fields of `todoSchema` that the verified claims
touch; `comments` and `attachments` are omitted, see the file header).
`Option` encodes a field that may be absent; timestamps are ms since
epoch. -/
structure Todo where
  id : Nat
  title : String
  description : Option String
  priority : Priority
  status : Status
  category : Option String
  tags : List String
  dueDate : Option Nat
  dueTime : Option String
  completedAt : Option Nat
  starred : Bool
  archived : Bool
  order : Int
  user : Nat
  subtasks : List Subtask
  createdAt : Nat
deriving DecidableEq, Repr

/-! ## Save middleware and instance methods (todo.schema.js) -/

/-- The `pre('save')` middleware: if the status path was modified, the
status is completed and `completedAt` is unset, stamp `completedAt` with
the current time.  `statusModified` is Mongoose's `isModified('status')`. -/
def applyPreSave (statusModified : Bool) (now : Nat) (t : Todo) : Todo :=
  if statusModified && t.status == Status.completed && t.completedAt == none then
    { t with completedAt := some now }
  else
    t

/-- `toggleStatus`: completed becomes pending and `completedAt` is cleared;
any other status becomes completed with `completedAt = now`.  The method
ends in `save()`, so the pre-save hook runs (status is always modified
here). -/
def toggleStatus (now : Nat) (t : Todo) : Todo :=
  let t' :=
    if t.status == Status.completed then
      { t with status := Status.pending, completedAt := none }
    else
      { t with status := Status.completed, completedAt := some now }
  applyPreSave true now t'

/-- Flip the `completed` flag of the first subtask whose `_id` matches,
as Mongoose's `subtasks.id(subtaskId)` returns the first match and the
method mutates only that sub-document. -/
def toggleFirstSubtask (sid : Nat) : List Subtask → List Subtask
  | [] => []
  | s :: rest =>
    if s.id == sid then { s with completed := !s.completed } :: rest
    else s :: toggleFirstSubtask sid rest

/-- `toggleSubtask`: look the subtask up by id; if present flip it and
save, otherwise throw `Error('Subtask not found')` before any mutation.
The thrown error is the `Except.error` branch; `save()` is only reached
in the `ok` branch. -/
def toggleSubtask (sid : Nat) (t : Todo) : Except String Todo :=
  if (t.subtasks.find? (fun s => s.id == sid)).isSome then
    Except.ok { t with subtasks := toggleFirstSubtask sid t.subtasks }
  else
    Except.error "Subtask not found"

/-! ## The `$regex ... $options:'i'` operator

The route passes the raw search string to `$regex`, so the string is
interpreted as a regular-expression pattern, not as a literal substring.
The embedding models the fragment of the pattern language the claims
exercise: ordinary characters match themselves and `.` matches any
character, always case-insensitively (`$options:'i'`); a pattern using any
other metacharacter is outside the modelled fragment and evaluates to a
non-match. -/

/-- A compiled pattern token: a literal character or the `.` wildcard. -/
inductive RTok
  | lit (c : Char)
  | dot
deriving DecidableEq, Repr

/-- The regex metacharacters of the pattern language. -/
def isRegexMeta (c : Char) : Bool :=
  c == '.' || c == '*' || c == '+' || c == '?' || c == '(' || c == ')' ||
  c == '[' || c == ']' || c == '\x7b' || c == '\x7d' || c == '\\' ||
  c == '^' || c == '$' || c == '|'

/-- Compile a pattern string into tokens; `none` when the pattern uses a
metacharacter other than `.` (outside the modelled fragment). -/
def compileToks : List Char → Option (List RTok)
  | [] => some []
  | c :: cs =>
    if c == '.' then (compileToks cs).map (fun ps => RTok.dot :: ps)
    else if isRegexMeta c then none
    else (compileToks cs).map (fun ps => RTok.lit c :: ps)

/-- Case-insensitive match of one token against one character. -/
def tokMatch : RTok → Char → Bool
  | RTok.lit c, d => c.toLower == d.toLower
  | RTok.dot, _ => true

/-- Match a token list against a prefix of the text. -/
def matchHere : List RTok → List Char → Bool
  | [], _ => true
  | _ :: _, [] => false
  | tok :: ps, c :: cs => tokMatch tok c && matchHere ps cs

/-- Unanchored search: the token list matches somewhere in the text. -/
def regexSearch (ps : List RTok) : List Char → Bool
  | [] => matchHere ps []
  | c :: cs => matchHere ps (c :: cs) || regexSearch ps cs

/-- Evaluation of `{ $regex: pat, $options: 'i' }` against a string field. -/
def regexMatchCI (pat text : String) : Bool :=
  match compileToks pat.toList with
  | some ps => regexSearch ps text.toList
  | none => false

/-- Boolean prefix test on character lists. -/
def isPrefixB : List Char → List Char → Bool
  | [], _ => true
  | _ :: _, [] => false
  | a :: as, b :: bs => a == b && isPrefixB as bs

/-- Boolean contiguous-substring test on character lists. -/
def isInfixB (p : List Char) : List Char → Bool
  | [] => isPrefixB p []
  | c :: cs => isPrefixB p (c :: cs) || isInfixB p cs

/-- The spec's notion of matching: the pattern occurs case-insensitively
as a literal substring of the text. -/
def containsCI (pat text : String) : Bool :=
  isInfixB (pat.toList.map Char.toLower) (text.toList.map Char.toLower)

/-! ## Query Builder (todoSchema.statics.findByUser and the GET / handler) -/

/-- The `options` object the GET / handler hands to `findByUser`. -/
structure FindOptions where
  status : Option String := none
  priority : Option String := none
  category : Option String := none
  starred : Option Bool := none
  search : Option String := none
deriving DecidableEq, Repr

/-- The filter document `findByUser` emits.  A `none` field means the key
is absent from the document; `search = some s` means the `$or` regex
clause over title and description is present with pattern `s`. -/
structure Query where
  user : Nat
  archived : Bool
  status : Option String := none
  priority : Option String := none
  category : Option String := none
  starred : Option Bool := none
  search : Option String := none
deriving DecidableEq, Repr

/-- JavaScript truthiness for an optional string field: present and
non-empty (`if (options.x)`). -/
def jsStrOpt : Option String → Option String
  | some s => if s == "" then none else some s
  | none => none

/-- `todoSchema.statics.findByUser`: start from
`{ user: userId, archived: false }` and add each filter key only when the
corresponding option is truthy (strings) or defined (`starred`). -/
def findByUserQuery (userId : Nat) (o : FindOptions) : Query :=
  { user := userId
    archived := false
    status := jsStrOpt o.status
    priority := jsStrOpt o.priority
    category := jsStrOpt o.category
    starred := o.starred
    search := jsStrOpt o.search }

/-- Evaluate the emitted filter document against a Todo, with the document
store's semantics: equality on scalar keys, a missing document field never
equal to a given string, and the `$or` clause testing the regex against
`title` and against `description` (no match when `description` is
absent). -/
def matchesQuery (q : Query) (t : Todo) : Bool :=
  t.user == q.user &&
  t.archived == q.archived &&
  (match q.status with
   | none => true
   | some s => statusToStr t.status == s) &&
  (match q.priority with
   | none => true
   | some s => priorityToStr t.priority == s) &&
  (match q.category with
   | none => true
   | some c => match t.category with
     | some tc => tc == c
     | none => false) &&
  (match q.starred with
   | none => true
   | some b => t.starred == b) &&
  (match q.search with
   | none => true
   | some s =>
     regexMatchCI s t.title ||
     (match t.description with
      | some d => regexMatchCI s d
      | none => false))

/-- The validated query parameters of GET / after defaulting: the five
optional filter strings plus `page` (default 1) and `limit` (default 20),
both already coerced to numbers. -/
structure ListQueryParams where
  status : Option String := none
  priority : Option String := none
  category : Option String := none
  starred : Option String := none
  search : Option String := none
  page : Nat := 1
  limit : Nat := 20
deriving DecidableEq, Repr

/-- The GET / handler's construction of `options`: start from
`{ search }`, add each of status/priority/category only when truthy and
not the sentinel `'all'`, and add `starred` as the boolean
`starred === 'true'` under the same condition. -/
def buildOptions (p : ListQueryParams) : FindOptions :=
  { search := p.search
    status :=
      match p.status with
      | some s => if !(s == "") && !(s == "all") then some s else none
      | none => none
    priority :=
      match p.priority with
      | some s => if !(s == "") && !(s == "all") then some s else none
      | none => none
    category :=
      match p.category with
      | some s => if !(s == "") && !(s == "all") then some s else none
      | none => none
    starred :=
      match p.starred with
      | some s => if !(s == "") && !(s == "all") then some (s == "true") else none
      | none => none }

/-- The sort comparator of `findByUser`: `order` ascending, then
`createdAt` descending. -/
def sortLe (a b : Todo) : Bool :=
  decide (a.order < b.order) ||
  (a.order == b.order && decide (b.createdAt ≤ a.createdAt))

/-- Stable insertion used by `sortTodos`. -/
def insertSorted (x : Todo) : List Todo → List Todo
  | [] => [x]
  | y :: ys => if sortLe x y then x :: y :: ys else y :: insertSorted x ys

/-- The sorted result set of `findByUser` (`sort({ order: 1, createdAt: -1 })`). -/
def sortTodos : List Todo → List Todo
  | [] => []
  | x :: xs => insertSorted x (sortTodos xs)

/-- The filter document the GET / handler passes to `countDocuments`:
`user`, `archived: false`, and — only when `search` is truthy — the same
`$or` regex clause; the status/priority/category/starred filters are not
part of this count. -/
def countFilterMatches (userId : Nat) (search : Option String) (t : Todo) : Bool :=
  t.user == userId &&
  t.archived == false &&
  (match jsStrOpt search with
   | none => true
   | some s =>
     regexMatchCI s t.title ||
     (match t.description with
      | some d => regexMatchCI s d
      | none => false))

/-- The pagination envelope of a list response. -/
structure Pagination where
  current : Nat
  pages : Nat
  total : Nat
deriving DecidableEq, Repr

/-- The `data` object of a GET / response. -/
structure ListResult where
  todos : List Todo
  pagination : Pagination
deriving DecidableEq, Repr

/-- `Math.ceil(total / limit)` for natural `total` and positive `limit`. -/
def ceilDiv (a b : Nat) : Nat := (a + b - 1) / b

/-- The GET / handler: run `findByUser` with the built options, apply
`skip((page-1)*limit)` and `limit(limit)` to the sorted result, count the
documents matching the separate `countDocuments` filter, and shape the
pagination envelope with `pages = Math.ceil(total / limit)`. -/
def listHandler (userId : Nat) (p : ListQueryParams) (store : List Todo) :
    ListResult :=
  let q := findByUserQuery userId (buildOptions p)
  let pageTodos :=
    ((sortTodos (store.filter (matchesQuery q))).drop ((p.page - 1) * p.limit)).take
      p.limit
  let total := store.countP (countFilterMatches userId p.search)
  { todos := pageTodos
    pagination :=
      { current := p.page, pages := ceilDiv total p.limit, total := total } }

/-! ## Statistics aggregator (todoSchema.statics.getStats) -/

/-- Parse a time-of-day string of the shape `HH:MM`; this is exactly the
set of `dueTime` values for which the concatenation
`dateToString(dueDate) ++ "T" ++ dueTime ++ ":00.000Z"` built by the
pipeline is a valid ISO datetime for `$dateFromString`.  Returns minutes
since midnight. -/
def parseHM (s : String) : Option Nat :=
  match s.toList with
  | [h1, h2, ':', m1, m2] =>
    if h1.isDigit && h2.isDigit && m1.isDigit && m2.isDigit then
      let h := (h1.toNat - 48) * 10 + (h2.toNat - 48)
      let m := (m1.toNat - 48) * 10 + (m2.toNat - 48)
      if h < 24 && m < 60 then some (h * 60 + m) else none
    else none
  | _ => none

/-- Milliseconds in a day. -/
def msPerDay : Nat := 86400000

/-- The `$addFields` expression `combinedDueDateTime`: when `dueDate` and
`dueTime` are both present and truthy, parse the concatenation of the
date portion of `dueDate` with the `dueTime` string as a UTC instant,
falling back to `dueDate` itself on a parse error (`onError`); otherwise
the field is `dueDate` (hence absent when `dueDate` is absent).  The date
portion of an instant is its floor to a day boundary, matching
`$dateToString` with format `%Y-%m-%d`. -/
def combinedDueDateTime (t : Todo) : Option Nat :=
  match t.dueDate, t.dueTime with
  | some d, some tm =>
    (match parseHM tm with
     | some mins => some (d / msPerDay * msPerDay + mins * 60000)
     | none => some d)
  | some d, none => some d
  | none, _ => none

/-- The six accumulators of the `$group` stage. -/
structure Stats where
  total : Nat
  completed : Nat
  pending : Nat
  inProgress : Nat
  highPriority : Nat
  overdue : Nat
deriving DecidableEq, Repr

/-- The zero of every `$sum` accumulator. -/
def zeroStats : Stats := ⟨0, 0, 0, 0, 0, 0⟩

/-- `$cond [b, 1, 0]`. -/
def b2n (b : Bool) : Nat := if b then 1 else 0

/-- The overdue `$cond`: status not completed, the combined due-datetime
not null/absent, and that datetime strictly before `now`. -/
def overdueCond (now : Nat) (t : Todo) (c : Option Nat) : Bool :=
  !(t.status == Status.completed) &&
  (match c with
   | some v => decide (v < now)
   | none => false)

/-- One document's contribution to the `$group` accumulators. -/
def groupStep (now : Nat) (p : Todo × Option Nat) (acc : Stats) : Stats :=
  { total := acc.total + 1
    completed := acc.completed + b2n (p.1.status == Status.completed)
    pending := acc.pending + b2n (p.1.status == Status.pending)
    inProgress := acc.inProgress + b2n (p.1.status == Status.inProgress)
    highPriority := acc.highPriority + b2n (p.1.priority == Priority.high)
    overdue := acc.overdue + b2n (overdueCond now p.1 p.2) }

/-- `todoSchema.statics.getStats`: `$match` on the user's non-archived
todos, `$addFields` the combined due-datetime, then `$group` the six
counters. -/
def getStats (now : Nat) (userId : Nat) (todos : List Todo) : Stats :=
  ((todos.filter (fun t => t.user == userId && t.archived == false)).map
      (fun t => (t, combinedDueDateTime t))).foldr
    (groupStep now) zeroStats

/-! ## Store-level route handlers (todo.routes.js) -/

/-- `findOne({ _id: id, user: userId })` over the store. -/
def findOneTodo (store : List Todo) (id userId : Nat) : Option Todo :=
  store.find? (fun t => t.id == id && t.user == userId)

/-- Persist a (possibly updated) document back into the store by `_id`. -/
def saveTodoIn (store : List Todo) (t : Todo) : List Todo :=
  store.map (fun u => if u.id == t.id then t else u)

/-- The PUT /:id request body.  The route validates the listed optional
fields, but express-validator does not strip unlisted keys, so any schema
field present in the body — in particular `archived` — is passed through
to `findOneAndUpdate` as well. -/
structure UpdateBody where
  title : Option String := none
  description : Option String := none
  priority : Option Priority := none
  status : Option Status := none
  category : Option String := none
  tags : Option (List String) := none
  dueDate : Option Nat := none
  dueTime : Option String := none
  starred : Option Bool := none
  order : Option Int := none
  archived : Option Bool := none
deriving DecidableEq, Repr

/-- Apply an update document to a stored todo: each present body field
overwrites the corresponding document field, the rest are untouched. -/
def applyUpdate (b : UpdateBody) (t : Todo) : Todo :=
  { t with
    title := b.title.getD t.title
    description := (b.description.map some).getD t.description
    priority := b.priority.getD t.priority
    status := b.status.getD t.status
    category := (b.category.map some).getD t.category
    tags := b.tags.getD t.tags
    dueDate := (b.dueDate.map some).getD t.dueDate
    dueTime := (b.dueTime.map some).getD t.dueTime
    starred := b.starred.getD t.starred
    order := b.order.getD t.order
    archived := b.archived.getD t.archived }

/-- Outcome of a single-document route. -/
inductive HandlerOutcome
  | notFound
  | serverError (msg : String)
  | ok (todo : Todo)
deriving DecidableEq, Repr

/-- The PUT /:id handler:
`findOneAndUpdate({ _id, user }, req.body, { new: true, runValidators: true })`.
`findOneAndUpdate` is a query-level update, so the document `pre('save')`
middleware does not run on this path. -/
def putHandler (store : List Todo) (id userId : Nat) (b : UpdateBody) :
    HandlerOutcome × List Todo :=
  match findOneTodo store id userId with
  | none => (HandlerOutcome.notFound, store)
  | some t =>
    let t' := applyUpdate b t
    (HandlerOutcome.ok t', saveTodoIn store t')

/-- The PATCH /:id/archive handler:
`findOneAndUpdate({ _id, user }, { archived: true }, { new: true })`. -/
def archiveHandler (store : List Todo) (id userId : Nat) :
    HandlerOutcome × List Todo :=
  match findOneTodo store id userId with
  | none => (HandlerOutcome.notFound, store)
  | some t =>
    let t' := { t with archived := true }
    (HandlerOutcome.ok t', saveTodoIn store t')

/-- The PATCH /:id/toggle handler: look up, then `toggleStatus()` which
saves. -/
def toggleHandler (store : List Todo) (id userId : Nat) (now : Nat) :
    HandlerOutcome × List Todo :=
  match findOneTodo store id userId with
  | none => (HandlerOutcome.notFound, store)
  | some t =>
    let t' := toggleStatus now t
    (HandlerOutcome.ok t', saveTodoIn store t')

/-- The PATCH /:id/subtasks/:subtaskId handler: look up the todo, then
`toggleSubtask(subtaskId)`.  The method's thrown error is caught by the
route's catch block and surfaced as the generic 500 envelope with the
error's message, with nothing written; on success the mutated document is
saved (the pre-save hook is a no-op since status is not modified). -/
def toggleSubtaskHandler (store : List Todo) (id userId sid : Nat) (now : Nat) :
    HandlerOutcome × List Todo :=
  match findOneTodo store id userId with
  | none => (HandlerOutcome.notFound, store)
  | some t =>
    match toggleSubtask sid t with
    | Except.ok t' =>
      let t'' := applyPreSave false now t'
      (HandlerOutcome.ok t'', saveTodoIn store t'')
    | Except.error e => (HandlerOutcome.serverError e, store)

/-! ## Bulk operations (POST /bulk) -/

/-- The validated `action` field of POST /bulk. -/
inductive BulkAction
  | delete
  | archive
  | updateStatus
deriving DecidableEq, Repr

/-- The bulk filter `{ _id: { $in: todoIds }, user: req.user.id }`. -/
def bulkFilter (todoIds : List Nat) (userId : Nat) (t : Todo) : Bool :=
  todoIds.contains t.id && t.user == userId

/-- `deleteMany(filter)`: the deleted count and remaining store. -/
def deleteMany (pred : Todo → Bool) (store : List Todo) : Nat × List Todo :=
  (store.countP pred, store.filter (fun t => !(pred t)))

/-- `updateMany(filter, update)`: the `modifiedCount` (matched documents
the update actually changes) and the updated store. -/
def updateMany (pred : Todo → Bool) (f : Todo → Todo) (store : List Todo) :
    Nat × List Todo :=
  (store.countP (fun t => pred t && !(decide (f t = t))),
   store.map (fun t => if pred t then f t else t))

/-- The update document of the bulk `update-status` action:
`{ status, completedAt: status === 'completed' ? new Date() : undefined }`.
Mongoose drops `undefined` update values, so `completedAt` is only
written when the target status is completed. -/
def bulkStatusUpdate (s : Status) (now : Nat) (t : Todo) : Todo :=
  if s == Status.completed then
    { t with status := s, completedAt := some now }
  else
    { t with status := s }

/-- The JSON body of a POST /bulk response: whether a 400 was returned,
the message, and the reported `data.modifiedCount`
(`none` when the value is `undefined` and the key is absent from the
serialized JSON). -/
structure BulkResponse where
  status400 : Bool
  message : String
  modifiedCount : Option Nat
deriving DecidableEq, Repr

/-- JavaScript `a || b` on optional numbers: `0` and `undefined` are
falsy. -/
def jsOrNum (a b : Option Nat) : Option Nat :=
  match a with
  | some n => if n == 0 then b else some n
  | none => b

/-- The POST /bulk handler.  The express-validator chain rejects an empty
`todoIds` array up front; the `update-status` branch returns its own 400
when `status` is absent, before any write; otherwise the matching action
runs and the response carries
`modifiedCount: result.modifiedCount || result.deletedCount`. -/
def bulkHandler (userId : Nat) (action : BulkAction) (todoIds : List Nat)
    (status : Option Status) (now : Nat) (store : List Todo) :
    BulkResponse × List Todo :=
  if todoIds.isEmpty then
    ({ status400 := true, message := "Validation failed", modifiedCount := none },
     store)
  else
    match action with
    | BulkAction.delete =>
      let r := deleteMany (bulkFilter todoIds userId) store
      ({ status400 := false
         message := "Bulk delete completed successfully"
         modifiedCount := jsOrNum none (some r.1) }, r.2)
    | BulkAction.archive =>
      let r := updateMany (bulkFilter todoIds userId)
        (fun t => { t with archived := true }) store
      ({ status400 := false
         message := "Bulk archive completed successfully"
         modifiedCount := jsOrNum (some r.1) none }, r.2)
    | BulkAction.updateStatus =>
      match status with
      | none =>
        ({ status400 := true
           message := "Status is required for update-status action"
           modifiedCount := none }, store)
      | some s =>
        let r := updateMany (bulkFilter todoIds userId) (bulkStatusUpdate s now)
          store
        ({ status400 := false
           message := "Bulk update-status completed successfully"
           modifiedCount := jsOrNum (some r.1) none }, r.2)

/-! ## Spec-side definitions

These follow the specification's words rather than the code, for the
refinement-style claims that compare the two. -/

/-- The spec's due-datetime: if both `dueDate` and `dueTime` are present,
the date portion of `dueDate` with the `dueTime` string appended as the
UTC time-of-day, falling back to `dueDate` alone if that combination
fails to parse; `dueDate` alone when only it is present; nonexistent when
`dueDate` is absent. -/
def specDueDatetime (t : Todo) : Option Nat :=
  match t.dueDate with
  | none => none
  | some d =>
    match t.dueTime with
    | none => some d
    | some tm =>
      match parseHM tm with
      | some mins => some (d / msPerDay * msPerDay + mins * 60000)
      | none => some d

/-- The spec's overdue predicate: status is not completed, a computed
due-datetime exists, and it is strictly before the current time. -/
def specOverdue (now : Nat) (t : Todo) : Bool :=
  !(t.status == Status.completed) &&
  (match specDueDatetime t with
   | some v => decide (v < now)
   | none => false)

/-! ## Concrete fixtures used by counterexamples and witnesses -/

/-- A plain pending todo owned by user 1. -/
def baseTodo : Todo :=
  { id := 1
    title := "Buy milk"
    description := none
    priority := Priority.medium
    status := Status.pending
    category := none
    tags := []
    dueDate := none
    dueTime := none
    completedAt := none
    starred := false
    archived := false
    order := 0
    user := 1
    subtasks := []
    createdAt := 0 }

/-- GET / query parameters with every filter absent and default paging. -/
def defaultParams : ListQueryParams := {}

/-- Options with every filter absent. -/
def emptyOptions : FindOptions := {}

/-- A todo of user 1 carrying a single subtask with identifier 7. -/
def subtaskTodoEx : Todo := { baseTodo with subtasks := [⟨7, "step", false, 0⟩] }

/-! ## Theorems -/

/-- C8: Toggle flips status only between completed and pending: a
completed todo becomes pending with `completedAt` cleared, any other todo
becomes completed with `completedAt = now`, and no toggle ever yields
in-progress. -/
theorem C8_toggle_only_completed_pending (t : Todo) (now : Nat) :
    (t.status = Status.completed →
      (toggleStatus now t).status = Status.pending ∧
      (toggleStatus now t).completedAt = none) ∧
    (t.status ≠ Status.completed →
      (toggleStatus now t).status = Status.completed ∧
      (toggleStatus now t).completedAt = some now) ∧
    (toggleStatus now t).status ≠ Status.inProgress := by
  cases h : t.status <;> simp [toggleStatus, applyPreSave, h]

/-- Witness for C8 at a concrete pending todo: toggling completes it and
stamps `completedAt`. -/
theorem C8_toggle_witness :
    (toggleStatus 5 baseTodo).status = Status.completed ∧
    (toggleStatus 5 baseTodo).completedAt = some 5 :=
  (C8_toggle_only_completed_pending baseTodo 5).2.1 (by decide)

/-- C4: toggling a subtask identifier matching no subtask on the todo
fails with the not-found error, and the store is left unmodified (the
route surfaces the thrown error without writing). -/
theorem C4_toggleSubtask_notFound (store : List Todo) (t : Todo)
    (id userId sid : Nat) (now : Nat)
    (hfind : findOneTodo store id userId = some t)
    (hs : ∀ s ∈ t.subtasks, s.id ≠ sid) :
    toggleSubtask sid t = Except.error "Subtask not found" ∧
    toggleSubtaskHandler store id userId sid now =
      (HandlerOutcome.serverError "Subtask not found", store) := by
  have hnone : t.subtasks.find? (fun s => s.id == sid) = none := by
    apply List.find?_eq_none.mpr
    intro s hmem
    simpa using hs s hmem
  constructor
  · simp [toggleSubtask, hnone]
  · simp [toggleSubtaskHandler, hfind, toggleSubtask, hnone]

/-- Witness for C4 at a concrete todo whose only subtask has id 7,
toggling id 9. -/
theorem C4_toggleSubtask_notFound_witness :
    toggleSubtask 9 subtaskTodoEx = Except.error "Subtask not found" ∧
    toggleSubtaskHandler [subtaskTodoEx] 1 1 9 0 =
      (HandlerOutcome.serverError "Subtask not found", [subtaskTodoEx]) :=
  C4_toggleSubtask_notFound [subtaskTodoEx] subtaskTodoEx 1 1 9 0 (by decide)
    (by decide)

/-- C6: every query `findByUser` emits restricts to the given user and
`archived = false`; and when each handler filter is absent or the
sentinel "all" and search is absent, the emitted filter is exactly
`{ user, archived: false }` with no other condition. -/
theorem C6_query_builder_exact (u : Nat) (o : FindOptions) (p : ListQueryParams) :
    (findByUserQuery u o).user = u ∧
    (findByUserQuery u o).archived = false ∧
    (((p.status = none ∨ p.status = some "all") ∧
      (p.priority = none ∨ p.priority = some "all") ∧
      (p.category = none ∨ p.category = some "all") ∧
      (p.starred = none ∨ p.starred = some "all") ∧
      p.search = none) →
      findByUserQuery u (buildOptions p) = { user := u, archived := false }) := by
  refine ⟨rfl, rfl, ?_⟩
  rintro ⟨h1, h2, h3, h4, h5⟩
  rcases h1 with h1 | h1 <;> rcases h2 with h2 | h2 <;> rcases h3 with h3 | h3 <;>
    rcases h4 with h4 | h4 <;>
      simp [buildOptions, findByUserQuery, jsStrOpt, h1, h2, h3, h4, h5]

/-- Witness for C6 with no filters at all. -/
theorem C6_query_builder_exact_witness :
    (findByUserQuery 1 emptyOptions).user = 1 ∧
    (findByUserQuery 1 emptyOptions).archived = false ∧
    findByUserQuery 1 (buildOptions defaultParams) =
      { user := 1, archived := false } :=
  ⟨(C6_query_builder_exact 1 emptyOptions defaultParams).1,
   (C6_query_builder_exact 1 emptyOptions defaultParams).2.1,
   (C6_query_builder_exact 1 emptyOptions defaultParams).2.2 (by decide)⟩

/-- C10: a bulk update-status request without a status field is rejected
with the 400 response before any write, leaving the store unchanged. -/
theorem C10_bulk_updateStatus_requires_status (userId : Nat) (ids : List Nat)
    (now : Nat) (store : List Todo) (h : ids ≠ []) :
    bulkHandler userId BulkAction.updateStatus ids none now store =
      ({ status400 := true
         message := "Status is required for update-status action"
         modifiedCount := none }, store) := by
  have hne : ids.isEmpty = false := by
    cases ids with
    | nil => exact absurd rfl h
    | cons a l => rfl
  simp [bulkHandler, hne]

/-- Witness for C10 at a concrete one-element id list. -/
theorem C10_bulk_updateStatus_requires_status_witness :
    bulkHandler 1 BulkAction.updateStatus [5] none 0 [baseTodo] =
      ({ status400 := true
         message := "Status is required for update-status action"
         modifiedCount := none }, [baseTodo]) :=
  C10_bulk_updateStatus_requires_status 1 [5] 0 [baseTodo] (by decide)

/-- The overdue accumulator of the `$group` fold counts the documents
satisfying the overdue condition. -/
theorem groupFold_overdue (now : Nat) (l : List (Todo × Option Nat)) :
    (l.foldr (groupStep now) zeroStats).overdue =
      l.countP (fun p => overdueCond now p.1 p.2) := by
  induction l with
  | nil => rfl
  | cons x xs ih => simp [List.countP_cons, groupStep, ih, b2n, Nat.add_comm]

/-- The pipeline's combined due-datetime computes exactly the spec's
due-datetime. -/
theorem combined_eq_specDue (t : Todo) :
    combinedDueDateTime t = specDueDatetime t := by
  cases hd : t.dueDate <;> cases ht : t.dueTime <;>
    simp [combinedDueDateTime, specDueDatetime, hd, ht]

/-- C2: the statistics aggregator's overdue count equals the number of
the user's non-archived todos that are not completed and whose
spec-described due-datetime exists and lies strictly before the current
time. -/
theorem C2_stats_overdue (now userId : Nat) (todos : List Todo) :
    (getStats now userId todos).overdue =
      (todos.filter (fun t => t.user == userId && t.archived == false)).countP
        (specOverdue now) := by
  unfold getStats
  rw [groupFold_overdue, List.countP_map]
  have hfun :
      ((fun p : Todo × Option Nat => overdueCond now p.1 p.2) ∘
          fun t => (t, combinedDueDateTime t)) = specOverdue now := by
    funext t
    show overdueCond now t (combinedDueDateTime t) = specOverdue now t
    rw [overdueCond.eq_def, specOverdue.eq_def, combined_eq_specDue]
  rw [hfun]

/-- A pattern free of metacharacters compiles to its literal tokens. -/
theorem compileToks_noMeta (cs : List Char)
    (h : ∀ c ∈ cs, isRegexMeta c = false) :
    compileToks cs = some (cs.map RTok.lit) := by
  induction cs with
  | nil => rfl
  | cons c cs ih =>
    have hc : isRegexMeta c = false := h c (by simp)
    have hdot : (c == '.') = false := by
      cases hx : c == '.' with
      | false => rfl
      | true =>
        exfalso
        have : isRegexMeta c = true := by simp [isRegexMeta, hx]
        simp [this] at hc
    simp [compileToks, hdot, hc,
      ih (fun x hx => h x (List.mem_cons_of_mem _ hx))]

/-- An anchored match of literal tokens is a case-insensitive prefix
test. -/
theorem matchHere_lits (p : List Char) :
    ∀ t : List Char,
      matchHere (p.map RTok.lit) t =
        isPrefixB (p.map Char.toLower) (t.map Char.toLower) := by
  induction p with
  | nil => intro t; rfl
  | cons a as ih =>
    intro t
    cases t with
    | nil => rfl
    | cons b bs => simp [matchHere, isPrefixB, tokMatch, ih]

/-- An unanchored search with literal tokens is a case-insensitive
substring test. -/
theorem regexSearch_lits (p t : List Char) :
    regexSearch (p.map RTok.lit) t =
      isInfixB (p.map Char.toLower) (t.map Char.toLower) := by
  induction t with
  | nil =>
    simpa using matchHere_lits p []
  | cons c cs ih => simp [regexSearch, isInfixB, matchHere_lits, ih]

/-- For patterns without metacharacters, the `$regex` evaluation
coincides with case-insensitive literal-substring matching. -/
theorem regexMatchCI_noMeta (pat text : String)
    (h : pat.toList.all (fun c => !isRegexMeta c) = true) :
    regexMatchCI pat text = containsCI pat text := by
  have h' : ∀ c ∈ pat.toList, isRegexMeta c = false := by
    intro c hc
    simpa using List.all_eq_true.mp h c hc
  rw [regexMatchCI.eq_def, compileToks_noMeta _ h']
  simpa [containsCI] using regexSearch_lits pat.toList text.toList

/-- The empty pattern is a substring of everything. -/
theorem isInfixB_nil (l : List Char) : isInfixB [] l = true := by
  cases l <;> simp [isInfixB, isPrefixB]

/-- Counterexample to C7 as stated: the search string is fed to `$regex`
as a pattern, so `"a.c"` matches a todo titled `"abc"` although it is not
a substring of the title (and the description is absent). -/
theorem C7_counterexample :
    matchesQuery (findByUserQuery 1 { emptyOptions with search := some "a.c" })
        { baseTodo with title := "abc" } = true ∧
    containsCI "a.c" "abc" = false ∧
    ({ baseTodo with title := "abc" } : Todo).description = none := by
  decide

/-- C7 amended: the search string is interpreted as a case-insensitive
regular-expression pattern; for a search string containing no regex
metacharacter, a non-archived todo of the user matches the listing query
exactly when the string occurs case-insensitively as a substring of its
title or of its description. -/
theorem C7_search_substring (s : String) (t : Todo) (u : Nat)
    (hmeta : s.toList.all (fun c => !isRegexMeta c) = true)
    (hu : t.user = u) (ha : t.archived = false) :
    matchesQuery (findByUserQuery u { emptyOptions with search := some s }) t =
      (containsCI s t.title ||
        (match t.description with
         | some d => containsCI s d
         | none => false)) := by
  have key : ∀ txt, regexMatchCI s txt = containsCI s txt := fun txt =>
    regexMatchCI_noMeta s txt hmeta
  by_cases hs : s = ""
  · subst hs
    cases hd : t.description <;>
      simp [matchesQuery, findByUserQuery, jsStrOpt, emptyOptions, hu, ha, hd,
        containsCI, isInfixB_nil]
  · cases hd : t.description <;>
      simp [matchesQuery, findByUserQuery, jsStrOpt, emptyOptions, hu, ha, hd,
        hs, key]

/-- Witness for the amended C7: `"milk"` found case-insensitively in the
title `"Buy milk"`. -/
theorem C7_search_substring_witness :
    matchesQuery
        (findByUserQuery 1 { emptyOptions with search := some "milk" })
        baseTodo =
      (containsCI "milk" baseTodo.title ||
        (match baseTodo.description with
         | some d => containsCI "milk" d
         | none => false)) :=
  C7_search_substring "milk" baseTodo 1 (by decide) rfl rfl

/-- The store used by the C1 counterexample: two non-archived todos of
user 1, one pending and one completed. -/
def exStoreC1 : List Todo :=
  [baseTodo, { baseTodo with id := 2, status := Status.completed }]

/-- The C1 counterexample's filter set: `status=pending`, default
paging. -/
def exParamsC1 : ListQueryParams := { status := some "pending" }

/-- Counterexample to C1 as stated: with an active `status=pending`
filter over two todos of which one matches, the response's total is 2 —
the `countDocuments` filter omits the status condition — while only one
todo matches the criteria of the returned page. -/
theorem C1_counterexample :
    (listHandler 1 exParamsC1 exStoreC1).pagination.total = 2 ∧
    exStoreC1.countP
        (matchesQuery (findByUserQuery 1 (buildOptions exParamsC1))) = 1 := by
  decide

/-- The handler's `countDocuments` filter equals the Query Builder's
filter with only the search option set: user, non-archived, and the
search clause — no status/priority/category/starred condition. -/
theorem countFilter_eq_searchOnly (u : Nat) (search : Option String)
    (t : Todo) :
    countFilterMatches u search t =
      matchesQuery (findByUserQuery u { emptyOptions with search := search })
        t := by
  cases search with
  | none =>
    simp [countFilterMatches, matchesQuery, findByUserQuery, emptyOptions,
      jsStrOpt]
  | some s =>
    by_cases hs : s = "" <;>
      simp [countFilterMatches, matchesQuery, findByUserQuery, emptyOptions,
        jsStrOpt, hs]

/-- C1 amended: the pagination total counts the todos matching only
`{ user, archived: false, search }` (active status/priority/category/
starred filters are not applied to the count), `current` echoes the page,
and `pages` is the ceiling of `total / limit`, characterised as the least
number of limit-sized pages covering the total. -/
theorem C1_pagination (u : Nat) (p : ListQueryParams) (store : List Todo)
    (h : 1 ≤ p.limit) :
    (listHandler u p store).pagination.total =
      store.countP
        (matchesQuery
          (findByUserQuery u { emptyOptions with search := p.search })) ∧
    (listHandler u p store).pagination.current = p.page ∧
    (listHandler u p store).pagination.total ≤
      (listHandler u p store).pagination.pages * p.limit ∧
    (listHandler u p store).pagination.pages * p.limit <
      (listHandler u p store).pagination.total + p.limit := by
  have htotal :
      (listHandler u p store).pagination.total =
        store.countP (countFilterMatches u p.search) := rfl
  have hpages :
      (listHandler u p store).pagination.pages =
        (store.countP (countFilterMatches u p.search) + p.limit - 1) /
          p.limit := rfl
  have hfun :
      countFilterMatches u p.search =
        matchesQuery
          (findByUserQuery u { emptyOptions with search := p.search }) :=
    funext (countFilter_eq_searchOnly u p.search)
  have hdm :=
    Nat.div_add_mod
      (store.countP (countFilterMatches u p.search) + p.limit - 1) p.limit
  have hmlt :
      (store.countP (countFilterMatches u p.search) + p.limit - 1) % p.limit <
        p.limit :=
    Nat.mod_lt _ (Nat.lt_of_lt_of_le Nat.zero_lt_one h)
  refine ⟨by rw [htotal, hfun], rfl, ?_, ?_⟩
  · rw [htotal, hpages, Nat.mul_comm]
    omega
  · rw [htotal, hpages, Nat.mul_comm]
    omega

/-- Witness for the amended C1 at a one-todo store with default paging. -/
theorem C1_pagination_witness :
    (listHandler 1 defaultParams [baseTodo]).pagination.total =
      [baseTodo].countP
        (matchesQuery
          (findByUserQuery 1
            { emptyOptions with search := defaultParams.search })) ∧
    (listHandler 1 defaultParams [baseTodo]).pagination.current =
      defaultParams.page ∧
    (listHandler 1 defaultParams [baseTodo]).pagination.total ≤
      (listHandler 1 defaultParams [baseTodo]).pagination.pages *
        defaultParams.limit ∧
    (listHandler 1 defaultParams [baseTodo]).pagination.pages *
        defaultParams.limit <
      (listHandler 1 defaultParams [baseTodo]).pagination.total +
        defaultParams.limit :=
  C1_pagination 1 defaultParams [baseTodo] (by decide)

/-- Counterexample to C3 as stated: a PUT setting a pending todo's status
to completed persists the todo with status completed but with
`completedAt` still absent — `findOneAndUpdate` bypasses the pre-save
hook, so the timestamp is never set on the Update path. -/
theorem C3_counterexample :
    (putHandler [baseTodo] 1 1 { status := some Status.completed }).2.map
        Todo.status = [Status.completed] ∧
    (putHandler [baseTodo] 1 1 { status := some Status.completed }).2.map
        Todo.completedAt = [none] := by
  decide

/-- C3 amended: on save-based writes the pre-save hook stamps
`completedAt` the first time a modified status is completed; the PUT
update path applies the body directly and leaves `completedAt` exactly as
it was. -/
theorem C3_completedAt_on_save_only (t : Todo) (now : Nat) (b : UpdateBody) :
    (t.status = Status.completed → t.completedAt = none →
      (applyPreSave true now t).completedAt = some now) ∧
    (applyUpdate b t).completedAt = t.completedAt := by
  constructor
  · intro h1 h2
    simp [applyPreSave, h1, h2]
  · rfl

/-- Witness for the amended C3: the hook stamps a completed todo, and the
PUT body that completes a todo leaves `completedAt` absent. -/
theorem C3_completedAt_on_save_only_witness :
    (applyPreSave true 5 { baseTodo with status := Status.completed }).completedAt
        = some 5 ∧
    (applyUpdate { status := some Status.completed } baseTodo).completedAt =
      none :=
  ⟨(C3_completedAt_on_save_only { baseTodo with status := Status.completed } 5
      { status := some Status.completed }).1 rfl rfl,
   (C3_completedAt_on_save_only baseTodo 5
      { status := some Status.completed }).2⟩

/-- An archived todo of user 1 and the PUT body that un-archives it. -/
def archivedTodoEx : Todo := { baseTodo with archived := true }

/-- A PUT body whose only key is `archived: false`; the route's
validators ignore unlisted keys, so it reaches `findOneAndUpdate`. -/
def unarchiveBody : UpdateBody := { archived := some false }

/-- Counterexample to C5 as stated: PUT with a body containing
`archived: false` sets an archived todo back to `archived = false`, and
the todo again matches the default listing filter. -/
theorem C5_counterexample :
    archivedTodoEx.archived = true ∧
    (putHandler [archivedTodoEx] 1 1 unarchiveBody).2.map Todo.archived =
      [false] ∧
    (putHandler [archivedTodoEx] 1 1 unarchiveBody).2.countP
        (matchesQuery (findByUserQuery 1 (buildOptions defaultParams))) = 1 := by
  decide

/-- C5 amended: archiving is one-way on every exposed operation except
Update — toggle, subtask toggle and bulk update-status never change
`archived`, and a PUT body without an `archived` key preserves it — but
the Update operation passes the request body through, so a body with
`archived: false` does set it back to false. -/
theorem C5_archive_one_way_except_put (t : Todo) (now sid : Nat) (s : Status)
    (b : UpdateBody) :
    (toggleStatus now t).archived = t.archived ∧
    (∀ t', toggleSubtask sid t = Except.ok t' → t'.archived = t.archived) ∧
    (bulkStatusUpdate s now t).archived = t.archived ∧
    (b.archived = none → (applyUpdate b t).archived = t.archived) ∧
    (b.archived = some false → (applyUpdate b t).archived = false) := by
  refine ⟨?_, ?_, ?_, ?_, ?_⟩
  · cases hc : t.status == Status.completed <;>
      simp [toggleStatus, applyPreSave, hc]
  · intro t' h
    unfold toggleSubtask at h
    split at h
    · cases h
      rfl
    · cases h
  · unfold bulkStatusUpdate
    split <;> rfl
  · intro h
    simp [applyUpdate, h]
  · intro h
    simp [applyUpdate, h]

/-- Witness for the amended C5: toggling preserves `archived`, while a
PUT body carrying `archived: false` un-archives. -/
theorem C5_archive_one_way_except_put_witness :
    (toggleStatus 5 baseTodo).archived = baseTodo.archived ∧
    (applyUpdate unarchiveBody archivedTodoEx).archived = false :=
  ⟨(C5_archive_one_way_except_put baseTodo 5 0 Status.pending {}).1,
   (C5_archive_one_way_except_put archivedTodoEx 5 0 Status.pending
      unarchiveBody).2.2.2.2 rfl⟩

/-- Counterexample to C9 as stated: a bulk archive over one owned,
already-archived todo affects 0 records, but the response's
`modifiedCount` is absent (`0 || undefined` is `undefined`) instead of
reporting 0, and indeed nothing changed in the store. -/
theorem C9_counterexample :
    (bulkHandler 1 BulkAction.archive [1] none 0 [archivedTodoEx]).1.modifiedCount
        = none ∧
    (bulkHandler 1 BulkAction.archive [1] none 0 [archivedTodoEx]).2 =
      [archivedTodoEx] := by
  decide

/-- Setting `archived` to true is the identity exactly on already-archived
todos. -/
theorem setArchived_eq_self (t : Todo) :
    ({ t with archived := true } : Todo) = t ↔ t.archived = true := by
  constructor
  · intro h
    simpa using (congrArg Todo.archived h).symm
  · intro h
    cases t
    simp_all

/-- Whether a bulk archive actually changes a document, as a boolean. -/
theorem archive_modified_cond (t : Todo) :
    (!(decide (({ t with archived := true } : Todo) = t))) =
      (t.archived == false) := by
  by_cases h : ({ t with archived := true } : Todo) = t
  · simp [h, (setArchived_eq_self t).mp h]
  · have hf : t.archived = false := by
      cases harch : t.archived
      · rfl
      · exact absurd ((setArchived_eq_self t).mpr harch) h
    simp [h, hf]

/-- The bulk status update is the identity exactly when the document
already has the target status and, for completed, the fresh timestamp. -/
theorem bulkStatusUpdate_eq_self (s : Status) (now : Nat) (t : Todo) :
    bulkStatusUpdate s now t = t ↔
      t.status = s ∧ (s = Status.completed → t.completedAt = some now) := by
  unfold bulkStatusUpdate
  by_cases hs : s = Status.completed
  · subst hs
    simp only [beq_self_eq_true, if_true]
    cases t
    simp [Todo.mk.injEq, eq_comm]
  · have hsb : (s == Status.completed) = false := by
      cases hx : s == Status.completed
      · rfl
      · exact absurd (eq_of_beq hx) hs
    rw [hsb]
    simp only [Bool.false_eq_true, if_false]
    cases t
    simp [Todo.mk.injEq, hs, eq_comm]

/-- Whether a bulk update-status actually changes a document, as a
boolean. -/
theorem bulkStatus_modified_cond (s : Status) (now : Nat) (t : Todo) :
    (!(decide (bulkStatusUpdate s now t = t))) =
      (!(t.status == s && (!(s == Status.completed) ||
          t.completedAt == some now))) := by
  by_cases h : bulkStatusUpdate s now t = t
  · obtain ⟨h1, h2⟩ := (bulkStatusUpdate_eq_self s now t).mp h
    by_cases hs : s = Status.completed
    · subst hs
      simp [h, h1, h2 rfl]
    · simp [h, h1, hs]
  · have hn : ¬(t.status = s ∧ (s = Status.completed → t.completedAt = some now)) :=
      fun hc => h ((bulkStatusUpdate_eq_self s now t).mpr hc)
    push_neg at hn
    by_cases h1 : t.status = s
    · obtain ⟨hs, h2⟩ := hn h1
      subst hs
      simp [h, h1, h2]
    · simp [h, h1]

/-- C9 amended: each bulk action touches exactly the given identifiers
owned by the requesting user, silently skipping the rest; the response
reports the deleted count for delete (even 0), and the modified count for
archive and update-status only when it is nonzero — a zero modified count
is reported as an absent field rather than 0. -/
theorem C9_bulk_owned_subset (userId : Nat) (ids : List Nat) (s : Status)
    (now : Nat) (store : List Todo) (h : ids ≠ []) :
    ((bulkHandler userId BulkAction.delete ids none now store).2 =
        store.filter (fun t => !(ids.contains t.id && t.user == userId)) ∧
      (bulkHandler userId BulkAction.delete ids none now store).1.modifiedCount =
        some (store.countP (fun t => ids.contains t.id && t.user == userId))) ∧
    ((bulkHandler userId BulkAction.archive ids none now store).2 =
        store.map (fun t =>
          if ids.contains t.id && t.user == userId then
            { t with archived := true }
          else t) ∧
      (bulkHandler userId BulkAction.archive ids none now store).1.modifiedCount =
        (if store.countP (fun t =>
              (ids.contains t.id && t.user == userId) &&
                t.archived == false) = 0
         then none
         else some (store.countP (fun t =>
           (ids.contains t.id && t.user == userId) &&
             t.archived == false)))) ∧
    ((bulkHandler userId BulkAction.updateStatus ids (some s) now store).2 =
        store.map (fun t =>
          if ids.contains t.id && t.user == userId then bulkStatusUpdate s now t
          else t) ∧
      (bulkHandler userId BulkAction.updateStatus ids (some s) now
            store).1.modifiedCount =
        (if store.countP (fun t =>
              (ids.contains t.id && t.user == userId) &&
                !(t.status == s && (!(s == Status.completed) ||
                    t.completedAt == some now))) = 0
         then none
         else some (store.countP (fun t =>
           (ids.contains t.id && t.user == userId) &&
             !(t.status == s && (!(s == Status.completed) ||
                 t.completedAt == some now)))))) := by
  have hne : ids.isEmpty = false := by
    cases ids with
    | nil => exact absurd rfl h
    | cons a l => rfl
  have hbf : bulkFilter ids userId =
      fun t => ids.contains t.id && t.user == userId := rfl
  refine ⟨⟨?_, ?_⟩, ⟨?_, ?_⟩, ?_, ?_⟩ <;>
    simp [bulkHandler, hne, deleteMany, updateMany, jsOrNum, hbf,
      archive_modified_cond, bulkStatus_modified_cond]

/-- Witness for the amended C9: deleting one owned id out of a one-todo
store reports a deleted count of 1. -/
theorem C9_bulk_owned_subset_witness :
    (bulkHandler 1 BulkAction.delete [1] none 0 [baseTodo]).1.modifiedCount =
      some 1 :=
  ((C9_bulk_owned_subset 1 [1] Status.completed 0 [baseTodo]
      (by decide)).1.2).trans (by decide)

end TaskFlow
